import Mathlib

/-!
Verification of the P2P core of the safetytwin/share repository:
the protocol layer (src/p2p/protocol.py), the discovery service
(src/p2p/discovery.py) and the transport service (src/p2p/network.py),
shallowly embedded in Lean.  Python side effects are made explicit:
the clock (datetime.now) and the uuid generator become parameters
(now, freshId), dictionaries become association lists, and handler
exceptions become Except values.
-/

namespace Share

/-- JSON-like payload values: the protocol layer treats the data field of a
message as an opaque key/value map (Python Dict[str, Any]). -/
inductive JVal where
  | str (s : String)
  | num (n : Int)
  | jbool (b : Bool)
  | null
  | arr (xs : List JVal)
  | obj (fields : List (String × JVal))

/-- A JSON object: an association list of string keys and JSON values,
in insertion order, as a Python dict. -/
abbrev JObj := List (String × JVal)

/-- Python dict lookup d.get(k): first matching key, else None. -/
def JObj.get : JObj → String → Option JVal
  | [], _ => none
  | (k2, v) :: rest, k => if k2 = k then some v else JObj.get rest k

/-- Python dict assignment d[k] = v: replaces the value of an existing key in
place, otherwise appends the new key at the end (insertion order). -/
def JObj.set (o : JObj) (k : String) (v : JVal) : JObj :=
  if o.any (fun p => p.1 = k) then
    o.map (fun p => if p.1 = k then (k, v) else p)
  else o ++ [(k, v)]

/-- Models Python str.endswith over the underlying character lists
(String.endsWith itself does not reduce in the kernel). -/
def pyEndsWith (s suffix : String) : Bool :=
  suffix.data.isSuffixOf s.data

/-- The closed vocabulary of message types (enum MessageType in
src/p2p/protocol.py, lines 20-62). -/
inductive MessageType where
  | PING | PONG | ERROR
  | NODE_INFO | NODE_STATUS
  | VM_LIST | VM_INFO | VM_CREATE | VM_START | VM_STOP | VM_DELETE | VM_STATUS
  | CONTAINER_LIST | CONTAINER_INFO | CONTAINER_CREATE | CONTAINER_START
  | CONTAINER_STOP | CONTAINER_DELETE | CONTAINER_STATUS
  | WORKSPACE_LIST | WORKSPACE_INFO | WORKSPACE_CREATE | WORKSPACE_UPDATE
  | WORKSPACE_DELETE
  | FILE_TRANSFER_REQUEST | FILE_TRANSFER_RESPONSE | FILE_CHUNK
  | FILE_TRANSFER_STATUS | FILE_TRANSFER_COMPLETE
  deriving Repr, DecidableEq

/-- The string value of each MessageType enum member. -/
def MessageType.value : MessageType → String
  | .PING => "ping"
  | .PONG => "pong"
  | .ERROR => "error"
  | .NODE_INFO => "node_info"
  | .NODE_STATUS => "node_status"
  | .VM_LIST => "vm_list"
  | .VM_INFO => "vm_info"
  | .VM_CREATE => "vm_create"
  | .VM_START => "vm_start"
  | .VM_STOP => "vm_stop"
  | .VM_DELETE => "vm_delete"
  | .VM_STATUS => "vm_status"
  | .CONTAINER_LIST => "container_list"
  | .CONTAINER_INFO => "container_info"
  | .CONTAINER_CREATE => "container_create"
  | .CONTAINER_START => "container_start"
  | .CONTAINER_STOP => "container_stop"
  | .CONTAINER_DELETE => "container_delete"
  | .CONTAINER_STATUS => "container_status"
  | .WORKSPACE_LIST => "workspace_list"
  | .WORKSPACE_INFO => "workspace_info"
  | .WORKSPACE_CREATE => "workspace_create"
  | .WORKSPACE_UPDATE => "workspace_update"
  | .WORKSPACE_DELETE => "workspace_delete"
  | .FILE_TRANSFER_REQUEST => "file_transfer_request"
  | .FILE_TRANSFER_RESPONSE => "file_transfer_response"
  | .FILE_CHUNK => "file_chunk"
  | .FILE_TRANSFER_STATUS => "file_transfer_status"
  | .FILE_TRANSFER_COMPLETE => "file_transfer_complete"

/-- The list of valid type strings, as computed by
valid_types = [mt.value for mt in MessageType] in validate_message. -/
def validTypes : List String :=
  ["ping", "pong", "error", "node_info", "node_status",
   "vm_list", "vm_info", "vm_create", "vm_start", "vm_stop", "vm_delete",
   "vm_status",
   "container_list", "container_info", "container_create", "container_start",
   "container_stop", "container_delete", "container_status",
   "workspace_list", "workspace_info", "workspace_create", "workspace_update",
   "workspace_delete",
   "file_transfer_request", "file_transfer_response", "file_chunk",
   "file_transfer_status", "file_transfer_complete"]

/-- Status codes (enum StatusCode in src/p2p/protocol.py, lines 65-83). -/
inductive StatusCode where
  | OK | CREATED | ACCEPTED
  | BAD_REQUEST | UNAUTHORIZED | FORBIDDEN | NOT_FOUND | CONFLICT
  | INTERNAL_ERROR | NOT_IMPLEMENTED | SERVICE_UNAVAILABLE
  deriving Repr, DecidableEq

/-- The numeric value of each StatusCode enum member. -/
def StatusCode.value : StatusCode → Int
  | .OK => 200
  | .CREATED => 201
  | .ACCEPTED => 202
  | .BAD_REQUEST => 400
  | .UNAUTHORIZED => 401
  | .FORBIDDEN => 403
  | .NOT_FOUND => 404
  | .CONFLICT => 409
  | .INTERNAL_ERROR => 500
  | .NOT_IMPLEMENTED => 501
  | .SERVICE_UNAVAILABLE => 503

/-- The message_type argument of Message.__init__: a MessageType member,
a plain string, or None (Python passes None through data.get in from_dict). -/
inductive MsgTypeArg where
  | enum (t : MessageType)
  | str (s : String)
  | null
  deriving Repr, DecidableEq

/-- The status argument of create_response / create_error_response:
a StatusCode member or a raw integer. -/
inductive StatusArg where
  | enum (c : StatusCode)
  | num (n : Int)
  deriving Repr, DecidableEq

/-- status.value if isinstance(status, StatusCode) else status. -/
def StatusArg.toInt : StatusArg → Int
  | .enum c => c.value
  | .num n => n

/-- Python f-string rendering of an optional string: None prints as None. -/
def pyStr : Option String → String
  | none => "None"
  | some s => s

/-- The Message envelope (class Message in src/p2p/protocol.py).  The type
field is Option String because from_dict passes data.get to the constructor,
so a missing type key yields a message whose type is None. -/
structure Message where
  type : Option String
  data : JObj
  message_id : String
  correlation_id : Option String
  sender_id : Option String
  receiver_id : Option String
  timestamp : String

/-- Message.__init__ (protocol.py lines 94-126).  The uuid drawn when
message_id is absent is the freshId parameter; datetime.now().isoformat()
is the now parameter.  A falsy message_id (None or the empty string) is
replaced by the fresh uuid; an enum message_type is converted to its value. -/
def mkMessage (message_type : MsgTypeArg) (data : Option JObj)
    (message_id : Option String) (correlation_id : Option String)
    (sender_id : Option String) (receiver_id : Option String)
    (freshId now : String) : Message :=
  { type :=
      match message_type with
      | .enum t => some t.value
      | .str s => some s
      | .null => none
    data := data.getD []
    message_id :=
      match message_id with
      | none => freshId
      | some s => if s = "" then freshId else s
    correlation_id := correlation_id
    sender_id := sender_id
    receiver_id := receiver_id
    timestamp := now }

/-- The dictionary produced by Message.to_dict and consumed by
Message.from_dict.  A field holds none when the key is absent; to_json and
from_json are json.dumps and json.loads over exactly this object, which are
mutually inverse on it, so serialization is modelled by the dict itself.
A JSON null value behaves like an absent key for every consumer in the
source that uses dict.get, and is conflated with it here. -/
structure MsgDict where
  type : Option String
  message_id : Option String
  timestamp : Option String
  data : Option JObj
  correlation_id : Option String
  sender_id : Option String
  receiver_id : Option String

/-- Message.to_dict (protocol.py lines 128-147): type, message_id, timestamp
and data are always written; correlation_id, sender_id and receiver_id only
when truthy (neither None nor the empty string). -/
def Message.to_dict (m : Message) : MsgDict :=
  { type := m.type
    message_id := some m.message_id
    timestamp := some m.timestamp
    data := some m.data
    correlation_id :=
      match m.correlation_id with
      | some s => if s = "" then none else some s
      | none => none
    sender_id :=
      match m.sender_id with
      | some s => if s = "" then none else some s
      | none => none
    receiver_id :=
      match m.receiver_id with
      | some s => if s = "" then none else some s
      | none => none }

/-- Message.from_dict (protocol.py lines 153-163): every field is read with
dict.get and handed to the constructor; the stored timestamp key is never
read back, and a missing data key defaults to the empty dict. -/
def Message.from_dict (d : MsgDict) (freshId now : String) : Message :=
  mkMessage
    (match d.type with | some s => .str s | none => .null)
    d.data d.message_id d.correlation_id d.sender_id d.receiver_id
    freshId now

/-- Message.create_response (protocol.py lines 170-194): appends _response to
the type by f-string, stores the request message_id as correlation_id, swaps
sender and receiver, and writes the status code into the response data. -/
def Message.create_response (m : Message) (data : Option JObj)
    (status : StatusArg) (freshId now : String) : Message :=
  let response_data := (data.getD []).set "status" (JVal.num status.toInt)
  mkMessage (.str (pyStr m.type ++ "_response")) (some response_data)
    none (some m.message_id) m.receiver_id m.sender_id freshId now

/-- Message.create_error_response (protocol.py lines 196-222): an envelope of
type error carrying status and error text, correlated to the request and with
sender and receiver swapped. -/
def Message.create_error_response (m : Message) (error_message : String)
    (error_code : StatusArg) (freshId now : String) : Message :=
  let error_data : JObj :=
    [("status", JVal.num error_code.toInt), ("error", JVal.str error_message)]
  mkMessage (.str MessageType.ERROR.value) (some error_data)
    none (some m.message_id) m.receiver_id m.sender_id freshId now

/-- ProtocolHandler.validate_message (protocol.py lines 536-567) applied to a
dictionary: checks the required keys type and message_id in that order, then
that the type string is in the vocabulary or ends with _response.  Returns
the pair (is_valid, error_text). -/
def validate_message (d : MsgDict) : Bool × Option String :=
  match d.type with
  | none => (false, some "Brak wymaganego pola: type")
  | some t =>
    match d.message_id with
    | none => (false, some "Brak wymaganego pola: message_id")
    | some _ =>
      if ¬ (t ∈ validTypes) ∧ ¬ (pyEndsWith t "_response" = true) then
        (false, some ("Nieprawidłowy typ wiadomości: " ++ t))
      else (true, none)

/-- A registered protocol handler: receives the message and either returns an
optional response or raises (Except.error carries str(e)). -/
abbrev ProtocolHandlerFn := Message → Except String (Option Message)

/-- ProtocolHandler.handle_message (protocol.py lines 496-534) on a Message:
looks the type up in the handler table (a None type finds no handler); a
missing handler yields a NOT_IMPLEMENTED error envelope naming the type; a
handler exception yields an INTERNAL_ERROR error envelope. -/
def protocolHandleMessage (handlers : List (String × ProtocolHandlerFn))
    (m : Message) (freshId now : String) : Option Message :=
  let handler :=
    match m.type with
    | some t =>
      (handlers.find? (fun (p : String × ProtocolHandlerFn) => p.1 = t)).map
        Prod.snd
    | none => none
  match handler with
  | some h =>
    match h m with
    | .ok r => r
    | .error e =>
      some (m.create_error_response e (.enum .INTERNAL_ERROR) freshId now)
  | none =>
    some (m.create_error_response
      ("Nieobsługiwany typ wiadomości: " ++ pyStr m.type)
      (.enum .NOT_IMPLEMENTED) freshId now)

/-! ## Discovery service (src/p2p/discovery.py) -/

/-- A peer record (class PeerInfo, discovery.py lines 26-62).  last_seen is
datetime.now() at creation or update time, modelled as a Nat instant so that
elapsed time is arithmetic; the announcement timestamp stays a string. -/
structure PeerInfo where
  peer_id : String
  hostname : String
  ip : String
  timestamp : String
  last_seen : Nat
  environments : List JVal
  status : String
  version : String
  features : List String

/-- PeerInfo.__init__ (discovery.py lines 29-38): a fresh record is active,
stamped last_seen = now, with empty environments, version and features. -/
def PeerInfo.init (peer_id hostname ip timestamp : String) (now : Nat) :
    PeerInfo :=
  { peer_id := peer_id, hostname := hostname, ip := ip, timestamp := timestamp
    last_seen := now, environments := [], status := "active", version := ""
    features := [] }

/-- A decoded announcement datagram: the JSON object fields read by the
listen loop and by PeerInfo.update, none when the key is absent. -/
structure PeerData where
  peer_id : Option String
  hostname : Option String
  ip : Option String
  timestamp : Option String
  environments : Option (List JVal)
  version : Option String
  features : Option (List String)

/-- PeerInfo.update (discovery.py lines 40-48): overwrites each field from
the announcement when present, stamps last_seen = now.  Note that neither
peer_id nor status is touched. -/
def PeerInfo.update (p : PeerInfo) (d : PeerData) (now : Nat) : PeerInfo :=
  { p with
    hostname := d.hostname.getD p.hostname
    ip := d.ip.getD p.ip
    timestamp := d.timestamp.getD p.timestamp
    last_seen := now
    environments := d.environments.getD p.environments
    version := d.version.getD p.version
    features := d.features.getD p.features }

/-- The peer registry self.peers: a Python dict from peer_id to PeerInfo,
modelled as an association list in insertion order. -/
abbrev Registry := List (String × PeerInfo)

/-- Dict membership: peer_id in self.peers. -/
def Registry.hasKey (r : Registry) (k : String) : Bool :=
  r.any (fun p => p.1 = k)

/-- Dict lookup self.peers[k] / get_peer, none for an unknown key. -/
def Registry.lookup : Registry → String → Option PeerInfo
  | [], _ => none
  | (k2, v) :: rest, k => if k2 = k then some v else Registry.lookup rest k

/-- Dict assignment self.peers[k] = v: replace in place or append. -/
def Registry.store (r : Registry) (k : String) (v : PeerInfo) : Registry :=
  if r.hasKey k then r.map (fun p => if p.1 = k then (k, v) else p)
  else r ++ [(k, v)]

/-- The key list of the registry. -/
def Registry.keys (r : Registry) : List String := r.map Prod.fst

/-- The datagram-processing body of P2PDiscovery._listen_for_peers
(discovery.py lines 207-257), one datagram at a time: overwrite the ip field
with the sender address, drop self-announcements (peer_id equal to the own
id of the node) and falsy peer ids, otherwise create or update the record
and report the callback invocations.  Each registered callback is invoked
once with the pair (peer_id, stored record); the second component of the
result lists these argument pairs (at most one per datagram).  selfId is
self.peer_id, now is the clock instant, nowIso its isoformat string. -/
def processAnnouncement (selfId : String) (peers : Registry) (d : PeerData)
    (addr : String) (now : Nat) (nowIso : String) :
    Registry × List (String × PeerInfo) :=
  let d := { d with ip := some addr }
  if d.peer_id = some selfId then (peers, [])
  else
    match d.peer_id with
    | none => (peers, [])
    | some pid =>
      if pid = "" then (peers, [])
      else
        let stored :=
          match peers.lookup pid with
          | none =>
            (PeerInfo.init pid (d.hostname.getD "Unknown") (d.ip.getD addr)
              (d.timestamp.getD nowIso) now).update d now
          | some existing => existing.update d now
        (peers.store pid stored, [(pid, stored)])

/-- The marking condition of P2PDiscovery._cleanup_peers (discovery.py lines
312-329): elapsed time since last_seen exceeds peer_timeout and the record is
still active.  Elapsed time is truncated subtraction, which agrees with the
source for every non-negative timeout. -/
def staleActive (peer_timeout now : Nat) (p : PeerInfo) : Bool :=
  decide (now - p.last_seen > peer_timeout) && decide (p.status = "active")

/-- P2PDiscovery._cleanup_peers, continued: the marking loop followed by the
callback loop.  The result pairs each flipped peer id with the record as the
callbacks see it (after the flip), one invocation per registered callback. -/
def cleanupPeers (peers : Registry) (now : Nat) (peer_timeout : Nat) :
    Registry × List (String × PeerInfo) :=
  let updated := peers.map (fun kp =>
    if staleActive peer_timeout now kp.2 then
      (kp.1, { kp.2 with status := "inactive" })
    else kp)
  let flippedIds :=
    (peers.filter (fun kp => staleActive peer_timeout now kp.2)).map Prod.fst
  let calls := flippedIds.filterMap (fun pid =>
    (Registry.lookup updated pid).map (fun p => (pid, p)))
  (updated, calls)

/-- P2PDiscovery.get_peers (discovery.py lines 138-143): runs the cleanup
sweep, then returns the records whose status is active.  The source returns
to_dict snapshots; the records themselves stand for those field-for-field
copies.  The first component is the registry after the sweep. -/
def get_peers (peers : Registry) (now : Nat) (peer_timeout : Nat) :
    Registry × List PeerInfo :=
  let swept := (cleanupPeers peers now peer_timeout).1
  (swept, (swept.map Prod.snd).filter (fun p => p.status = "active"))

/-- P2PDiscovery.get_peer (discovery.py lines 145-149): a plain dict lookup,
no sweep, no status filter; the registry is returned unchanged to make the
absence of mutation part of the statement. -/
def get_peer (peers : Registry) (pid : String) :
    Registry × Option PeerInfo :=
  (peers, peers.lookup pid)

/-- One registry-touching operation of the discovery service. -/
inductive DiscoveryOp where
  | announce (d : PeerData) (addr : String) (now : Nat) (nowIso : String)
  | getPeers (now : Nat) (peer_timeout : Nat)
  | getPeer (pid : String)

/-- The registry after one operation. -/
def discoveryStep (selfId : String) (r : Registry) :
    DiscoveryOp → Registry
  | .announce d addr now nowIso =>
    (processAnnouncement selfId r d addr now nowIso).1
  | .getPeers now peer_timeout => (get_peers r now peer_timeout).1
  | .getPeer pid => (get_peer r pid).1

/-- The registry invariant of claim C9: every stored record is keyed by its
own peer_id and its status is active or inactive. -/
abbrev RegistryInv (r : Registry) : Prop :=
  ∀ kp ∈ r, kp.2.peer_id = kp.1
    ∧ (kp.2.status = "active" ∨ kp.2.status = "inactive")

/-! ## Transport service (src/p2p/network.py) -/

/-- The SSL-relevant state of P2PNetwork: the use_ssl flag (from config, then
possibly cleared by _setup_ssl), whether an SSL context was configured, and
the running flag. -/
structure NetworkState where
  use_ssl : Bool
  has_ssl_context : Bool
  running : Bool
  deriving Repr, DecidableEq

/-- P2PNetwork._setup_ssl (network.py lines 68-91): on success an SSL context
is installed; on any exception during certificate bootstrap or loading the
error is logged and use_ssl is set to False.  The success of the filesystem
and crypto work is the bootstrapOk parameter. -/
def setupSSL (st : NetworkState) (bootstrapOk : Bool) : NetworkState :=
  if bootstrapOk then { st with has_ssl_context := true }
  else { st with use_ssl := false }

/-- P2PNetwork.__init__ (network.py lines 42-66) restricted to the SSL state:
_setup_ssl runs only when the configured use_ssl flag is set. -/
def networkInit (useSSLConfig : Bool) (bootstrapOk : Bool) : NetworkState :=
  let st : NetworkState :=
    { use_ssl := useSSLConfig, has_ssl_context := false, running := false }
  if useSSLConfig then setupSSL st bootstrapOk else st

/-- P2PNetwork.start (network.py lines 357-377): a no-op returning False when
already running, otherwise sets running and launches the server task,
returning True.  No SSL condition is consulted. -/
def networkStart (st : NetworkState) : NetworkState × Bool :=
  if st.running then (st, false) else ({ st with running := true }, true)

/-- The scheme the server is created with (start_server, network.py lines
202-209): TLS only when use_ssl is set and a context exists, else plain. -/
def serverScheme (st : NetworkState) : String :=
  if st.use_ssl ∧ st.has_ssl_context then "https" else "http"

/-- A registered network handler: receives the data payload and returns a
result payload or raises (Except.error carries str(e)). -/
abbrev NetHandlerFn := JObj → Except String JObj

/-- The parsed body of a POST /message request: the type and data keys read
by _handle_message. -/
structure InboundBody where
  type : Option String
  data : Option JObj

/-- An HTTP response of the message endpoint: status code and JSON body. -/
structure HttpResponse where
  status : Nat
  body : JObj

/-- The size guard of P2PNetwork._handle_message (network.py lines 218-227):
a truthy content_length above max_message_size is rejected before parsing. -/
def contentTooLarge (max_message_size : Nat) (content_length : Option Nat) :
    Bool :=
  match content_length with
  | some n => n != 0 && decide (n > max_message_size)
  | none => false

/-- P2PNetwork._handle_message (network.py lines 215-258): reject bodies over
max_message_size with 413 before parsing; a falsy type is 400; an unknown
type is 400 with the type name in the message; a handler exception is 500;
otherwise the handler result is returned with 200. -/
def networkHandleMessage (handlers : List (String × NetHandlerFn))
    (max_message_size : Nat) (content_length : Option Nat)
    (body : InboundBody) : HttpResponse :=
  if contentTooLarge max_message_size content_length then
    { status := 413
      body := [("status", JVal.str "error"),
        ("message", JVal.str ("Message too large ("
          ++ toString (content_length.getD 0) ++ " bytes)"))] }
  else
    match body.type with
    | none =>
      { status := 400
        body := [("status", JVal.str "error"),
          ("message", JVal.str "Missing message type")] }
    | some t =>
      if t = "" then
        { status := 400
          body := [("status", JVal.str "error"),
            ("message", JVal.str "Missing message type")] }
      else
        match (handlers.find? (fun (p : String × NetHandlerFn) => p.1 = t)).map
            Prod.snd with
        | none =>
          { status := 400
            body := [("status", JVal.str "error"),
              ("message", JVal.str ("Unknown message type: " ++ t))] }
        | some h =>
          match h (body.data.getD []) with
          | .ok result => { status := 200, body := result }
          | .error e =>
            { status := 500
              body := [("status", JVal.str "error"),
                ("message", JVal.str e)] }

/-- The default handler table registered by _register_default_handlers
(network.py lines 154-177): ping, get_info and get_environments, with the
node id, the clock and node_info of the discovery module as parameters. -/
def defaultNetworkHandlers (nodeId nowIso : String) (nodeInfo : JObj) :
    List (String × NetHandlerFn) :=
  [("ping", fun _ => .ok
      [("status", JVal.str "ok"), ("timestamp", JVal.str nowIso),
        ("node_id", JVal.str nodeId)]),
   ("get_info", fun _ => .ok
      [("status", JVal.str "ok"), ("info", JVal.obj nodeInfo)]),
   ("get_environments", fun _ => .ok
      [("status", JVal.str "ok"),
        ("environments", (nodeInfo.get "environments").getD (JVal.arr []))])]

/-- The destination a send resolves to. -/
inductive SendRoute where
  | localDispatch
  | peerNotFound
  | remote (url : String)
  deriving Repr, DecidableEq

/-- The destination-resolution part of P2PNetwork.send_message (network.py
lines 440-507): a peer id naming this node is dispatched locally; otherwise
discovery.get_peer resolves it, an unknown id fails, and a known record is
contacted at its ip over the configured scheme — no status check occurs. -/
def resolveSendRoute (localHostname : String) (localIps : List String)
    (selfId : String) (use_ssl : Bool) (port : Nat) (peers : Registry)
    (pid : String) : SendRoute :=
  let is_local := pid ∈ ["localhost", "127.0.0.1"] ∨ pid = localHostname
    ∨ pid ∈ localIps ∨ pid = selfId
  if is_local then .localDispatch
  else
    match (get_peer peers pid).2 with
    | none => .peerNotFound
    | some peer_info =>
      let scheme := if use_ssl then "https" else "http"
      .remote (scheme ++ "://" ++ peer_info.ip ++ ":" ++ toString port
        ++ "/message")

/-- The destination-resolution part of P2PNetwork.download_file (network.py
lines 605-631): discovery.get_peer resolves the id; an unknown id returns
False, a known record — active or not — is contacted at its download URL. -/
def resolveDownloadRoute (use_ssl : Bool) (port : Nat) (peers : Registry)
    (pid : String) (file_id : String) : Option String :=
  match (get_peer peers pid).2 with
  | none => none
  | some peer_info =>
    let scheme := if use_ssl then "https" else "http"
    some (scheme ++ "://" ++ peer_info.ip ++ ":" ++ toString port
      ++ "/file/download/" ++ file_id)

/-! ## Theorems for the protocol layer claims -/

/-- Claim C1, counterexample: the round trip does not preserve the timestamp
field.  Message.from_dict never reads the stored timestamp key back — the
constructor stamps the deserialization instant — so an envelope serialized at
one instant and deserialized at another disagrees with the original on the
timestamp field. -/
theorem C1_roundtrip_counterexample :
    (Message.from_dict
        (Message.to_dict (mkMessage (.enum .PING) (some []) (some "m1") none
          (some "a") (some "b") "f0" "2024-01-01T00:00:00"))
        "f1" "2024-01-01T00:00:05").timestamp
      ≠ (mkMessage (.enum .PING) (some []) (some "m1") none
          (some "a") (some "b") "f0" "2024-01-01T00:00:00").timestamp := by
  decide

/-- Claim C1, amended: deserializing the serialization of a valid envelope
(non-empty message id, optional routing fields absent or non-empty) agrees
with the original on type, message_id, correlation_id, sender_id,
receiver_id and data, while the timestamp of the result is the
deserialization instant, not the original timestamp. -/
theorem C1_roundtrip_amended (E : Message) (freshId now : String)
    (hm : E.message_id ≠ "")
    (hc : E.correlation_id ≠ some "")
    (hs : E.sender_id ≠ some "")
    (hr : E.receiver_id ≠ some "") :
    (Message.from_dict E.to_dict freshId now).type = E.type
    ∧ (Message.from_dict E.to_dict freshId now).message_id = E.message_id
    ∧ (Message.from_dict E.to_dict freshId now).correlation_id
        = E.correlation_id
    ∧ (Message.from_dict E.to_dict freshId now).sender_id = E.sender_id
    ∧ (Message.from_dict E.to_dict freshId now).receiver_id = E.receiver_id
    ∧ (Message.from_dict E.to_dict freshId now).data = E.data
    ∧ (Message.from_dict E.to_dict freshId now).timestamp = now := by
  unfold Message.from_dict Message.to_dict mkMessage
  refine ⟨?_, ?_, ?_, ?_, ?_, ?_, ?_⟩
  · cases E.type <;> simp
  · simp [hm]
  · cases hcase : E.correlation_id with
    | none => simp
    | some s =>
      have hne : s ≠ "" := by
        intro h
        exact hc (by rw [hcase, h])
      simp [hne]
  · cases hcase : E.sender_id with
    | none => simp
    | some s =>
      have hne : s ≠ "" := by
        intro h
        exact hs (by rw [hcase, h])
      simp [hne]
  · cases hcase : E.receiver_id with
    | none => simp
    | some s =>
      have hne : s ≠ "" := by
        intro h
        exact hr (by rw [hcase, h])
      simp [hne]
  · simp
  · simp

/-- Witness for C1_roundtrip_amended at a concrete envelope. -/
theorem C1_roundtrip_amended_witness :
    (Message.from_dict
        (Message.to_dict (mkMessage (.enum .PING) (some []) (some "m1")
          (some "c1") (some "a") (some "b") "f0" "T0")) "f1" "T1").message_id
      = "m1" :=
  (C1_roundtrip_amended
    (mkMessage (.enum .PING) (some []) (some "m1") (some "c1") (some "a")
      (some "b") "f0" "T0") "f1" "T1"
    (by decide) (by decide) (by decide) (by decide)).2.1

/-- Claim C4, confirmed: for a request envelope with a string type,
create_response appends the suffix _response to the type, stores the request
message_id as the correlation id, and swaps sender and receiver. -/
theorem C4_create_response (m : Message) (t : String) (data : Option JObj)
    (status : StatusArg) (freshId now : String) (ht : m.type = some t) :
    (m.create_response data status freshId now).type
        = some (t ++ "_response")
    ∧ (m.create_response data status freshId now).correlation_id
        = some m.message_id
    ∧ (m.create_response data status freshId now).sender_id = m.receiver_id
    ∧ (m.create_response data status freshId now).receiver_id = m.sender_id
    := by
  unfold Message.create_response mkMessage
  simp [ht, pyStr]

/-- Witness for C4_create_response at a concrete request. -/
theorem C4_create_response_witness :
    ((mkMessage (.enum .VM_LIST) (some []) (some "req-1") none (some "a")
        (some "b") "f0" "T0").create_response (some []) (.enum .OK) "f1" "T1"
      ).type = some "vm_list_response" :=
  (C4_create_response
    (mkMessage (.enum .VM_LIST) (some []) (some "req-1") none (some "a")
      (some "b") "f0" "T0") "vm_list" (some []) (.enum .OK) "f1" "T1"
    (by decide)).1

/-- Claim C5, counterexample: deserialization of a payload lacking both
required fields does not fail — the source has no MalformedMessage error at
all.  from_dict returns an envelope whose type is None and whose message id
is a freshly drawn uuid; the separate validate_message check is what reports
the dictionary invalid. -/
theorem C5_deserialize_counterexample :
    (Message.from_dict
        { type := none, message_id := none, timestamp := some "T",
          data := some [], correlation_id := none, sender_id := none,
          receiver_id := none } "fresh-uuid" "T1").type = none
    ∧ (Message.from_dict
        { type := none, message_id := none, timestamp := some "T",
          data := some [], correlation_id := none, sender_id := none,
          receiver_id := none } "fresh-uuid" "T1").message_id = "fresh-uuid"
    ∧ (validate_message
        { type := none, message_id := none, timestamp := some "T",
          data := some [], correlation_id := none, sender_id := none,
          receiver_id := none }).1 = false := by
  refine ⟨rfl, rfl, rfl⟩

/-- Claim C5, amended: deserialization itself never fails (a missing message
id is replaced by a fresh uuid); validation is the separate check
validate_message, which reports a dictionary invalid exactly when the type
key is absent, the message_id key is absent, or the type string is neither
in the known vocabulary nor of the _response suffix form. -/
theorem C5_validation_amended (d : MsgDict) (freshId now : String) :
    ((validate_message d).1 = false ↔
      (d.type = none ∨ d.message_id = none
        ∨ ∃ t, d.type = some t ∧ t ∉ validTypes
            ∧ pyEndsWith t "_response" = false))
    ∧ (d.message_id = none →
        (Message.from_dict d freshId now).message_id = freshId) := by
  constructor
  · cases htype : d.type with
    | none => simp [validate_message, htype]
    | some t =>
      cases hid : d.message_id with
      | none => simp [validate_message, htype, hid]
      | some i =>
        unfold validate_message
        rw [htype, hid]
        by_cases hv : t ∈ validTypes
        · simp [hv]
        · by_cases he : pyEndsWith t "_response" = true
          · simp [hv, he]
          · simp [hv, he, Bool.not_eq_true] at *
  · intro hid
    unfold Message.from_dict mkMessage
    simp [hid]

/-- Witness for C5_validation_amended at a concrete dictionary. -/
theorem C5_validation_amended_witness :
    (Message.from_dict
        { type := some "ping", message_id := none, timestamp := some "T",
          data := some [], correlation_id := none, sender_id := none,
          receiver_id := none } "u1" "T2").message_id = "u1" :=
  (C5_validation_amended
    { type := some "ping", message_id := none, timestamp := some "T",
      data := some [], correlation_id := none, sender_id := none,
      receiver_id := none } "u1" "T2").2 rfl

/-! ## Theorems for the transport claims C6 and C7 -/

/-- Claim C6, counterexample: the inbound HTTP dispatch answers an
unregistered message type (frobnicate, with the default handler table) with
status 400, not with a 501-equivalent envelope. -/
theorem C6_unknown_type_counterexample :
    (networkHandleMessage (defaultNetworkHandlers "node1" "T" [])
        (10 * 1024 * 1024) (some 100)
        { type := some "frobnicate", data := some [] }).status = 400
    ∧ (networkHandleMessage (defaultNetworkHandlers "node1" "T" [])
        (10 * 1024 * 1024) (some 100)
        { type := some "frobnicate", data := some [] }).status ≠ 501 := by
  refine ⟨rfl, by decide⟩

/-- Claim C6, amended: an inbound message whose type has no registered
handler is answered without crashing, with the offending type name in the
error text — but the HTTP dispatch of P2PNetwork tags it 400, while only
ProtocolHandler.handle_message (not wired into the network path) produces
the 501 NOT_IMPLEMENTED error envelope. -/
theorem C6_unknown_type_amended (handlers : List (String × NetHandlerFn))
    (max_message_size : Nat) (content_length : Option Nat) (t : String)
    (dat : Option JObj) (m : Message)
    (phandlers : List (String × ProtocolHandlerFn)) (freshId now : String)
    (ht : t ≠ "")
    (hsize : contentTooLarge max_message_size content_length = false)
    (hnh : ∀ h ∈ handlers, h.1 ≠ t)
    (hmt : m.type = some t)
    (hph : ∀ h ∈ phandlers, h.1 ≠ t) :
    (networkHandleMessage handlers max_message_size content_length
        { type := some t, data := dat }
      = { status := 400
          body := [("status", JVal.str "error"),
            ("message", JVal.str ("Unknown message type: " ++ t))] })
    ∧ (∃ e, protocolHandleMessage phandlers m freshId now = some e
        ∧ e.type = some "error"
        ∧ e.data.get "status" = some (JVal.num 501)
        ∧ e.data.get "error"
            = some (JVal.str ("Nieobsługiwany typ wiadomości: " ++ t))) := by
  constructor
  · unfold networkHandleMessage
    rw [hsize]
    have hfind : handlers.find? (fun (p : String × NetHandlerFn) => p.1 = t)
        = none := by
      rw [List.find?_eq_none]
      intro h hmem
      simpa using hnh h hmem
    simp [ht, hfind]
  · refine ⟨m.create_error_response ("Nieobsługiwany typ wiadomości: " ++ t)
      (.enum .NOT_IMPLEMENTED) freshId now, ?_, ?_, ?_, ?_⟩
    · unfold protocolHandleMessage
      have hfind : phandlers.find?
          (fun (p : String × ProtocolHandlerFn) => p.1 = t) = none := by
        rw [List.find?_eq_none]
        intro h hmem
        simpa using hph h hmem
      simp [hmt, hfind, pyStr]
    · rfl
    · rfl
    · unfold Message.create_error_response mkMessage
      simp [JObj.get]

/-- Witness for C6_unknown_type_amended: the frobnicate request of scenario C
against the default network handler table and the default (empty)
ProtocolHandler table. -/
theorem C6_unknown_type_amended_witness :
    networkHandleMessage (defaultNetworkHandlers "node1" "T" [])
        (10 * 1024 * 1024) (some 100)
        { type := some "frobnicate", data := some [] }
      = { status := 400
          body := [("status", JVal.str "error"),
            ("message", JVal.str "Unknown message type: frobnicate")] } :=
  (C6_unknown_type_amended (defaultNetworkHandlers "node1" "T" [])
    (10 * 1024 * 1024) (some 100) "frobnicate" (some [])
    (mkMessage (.str "frobnicate") (some []) (some "m1") none (some "a")
      (some "b") "f0" "T0") [] "f1" "T1"
    (by decide) (by decide)
    (by intro h hmem; fin_cases hmem <;> decide)
    rfl (by intro h hmem; cases hmem)).1

/-- Claim C7, counterexample: with TLS required by configuration and a
failing certificate bootstrap, the transport still starts successfully and
the server is created with the plain scheme — it does not fail to start. -/
theorem C7_plaintext_fallback_counterexample :
    (networkStart (networkInit true false)).2 = true
    ∧ serverScheme ((networkStart (networkInit true false)).1) = "http" := by
  decide

/-- Claim C7, amended: when TLS is required and the certificate bootstrap
fails, _setup_ssl logs the error and clears the use_ssl flag; start() then
succeeds and the server runs in plaintext mode — the failure is not fatal
and is not reported to the caller of start. -/
theorem C7_plaintext_fallback_amended :
    networkInit true false
      = { use_ssl := false, has_ssl_context := false, running := false }
    ∧ (networkStart (networkInit true false)).2 = true
    ∧ serverScheme ((networkStart (networkInit true false)).1) = "http"
    ∧ networkInit true true
      = { use_ssl := true, has_ssl_context := true, running := false } := by
  decide

/-! ## Registry lemmas -/

theorem Registry.lookup_mem : ∀ {r : Registry} {k : String} {v : PeerInfo},
    Registry.lookup r k = some v → (k, v) ∈ r
  | (k2, v2) :: rest, k, v, h => by
    simp only [Registry.lookup] at h
    by_cases hk : k2 = k
    · rw [if_pos hk] at h
      injection h with h2
      subst hk
      subst h2
      exact List.mem_cons_self _ _
    · rw [if_neg hk] at h
      exact List.mem_cons_of_mem _ (Registry.lookup_mem h)

theorem Registry.keys_store_of_hasKey {r : Registry} {k : String}
    (v : PeerInfo) (h : r.hasKey k = true) :
    (r.store k v).keys = r.keys := by
  unfold Registry.store Registry.keys
  rw [if_pos h, List.map_map]
  apply List.map_congr_left
  intro p _
  by_cases hpk : p.1 = k <;> simp [hpk]

theorem Registry.keys_store_of_not_hasKey {r : Registry} {k : String}
    (v : PeerInfo) (h : r.hasKey k = false) :
    (r.store k v).keys = r.keys ++ [k] := by
  unfold Registry.store Registry.keys
  simp [h]

theorem Registry.subset_keys_store (r : Registry) (k : String) (v : PeerInfo)
    {x : String} (hx : x ∈ r.keys) : x ∈ (r.store k v).keys := by
  by_cases hk : r.hasKey k = true
  · rw [Registry.keys_store_of_hasKey v hk]
    exact hx
  · rw [Registry.keys_store_of_not_hasKey v (by simpa using hk)]
    exact List.mem_append_left _ hx

theorem Registry.mem_keys_store {r : Registry} {k x : String} {v : PeerInfo}
    (h : x ∈ (r.store k v).keys) : x ∈ r.keys ∨ x = k := by
  by_cases hk : r.hasKey k = true
  · rw [Registry.keys_store_of_hasKey v hk] at h
    exact Or.inl h
  · rw [Registry.keys_store_of_not_hasKey v (by simpa using hk)] at h
    rcases List.mem_append.mp h with h2 | h2
    · exact Or.inl h2
    · exact Or.inr (by simpa using h2)

theorem RegistryInv.store {r : Registry} {k : String} {v : PeerInfo}
    (h : RegistryInv r) (hpid : v.peer_id = k)
    (hst : v.status = "active" ∨ v.status = "inactive") :
    RegistryInv (r.store k v) := by
  intro kp hkp
  unfold Registry.store at hkp
  by_cases hk : r.hasKey k = true
  · rw [if_pos hk] at hkp
    obtain ⟨p, hp, rfl⟩ := List.mem_map.mp hkp
    by_cases hpk : p.1 = k
    · simp only [hpk, if_pos]
      exact ⟨hpid, hst⟩
    · simp only [hpk, if_neg, ite_false]
      exact h p hp
  · rw [if_neg hk] at hkp
    rcases List.mem_append.mp hkp with hmem | hmem
    · exact h kp hmem
    · have : kp = (k, v) := by simpa using hmem
      subst this
      exact ⟨hpid, hst⟩

theorem PeerInfo.update_peer_id (p : PeerInfo) (d : PeerData) (now : Nat) :
    (p.update d now).peer_id = p.peer_id := rfl

theorem PeerInfo.update_status (p : PeerInfo) (d : PeerData) (now : Nat) :
    (p.update d now).status = p.status := rfl

theorem cleanupPeers_keys (r : Registry) (now peer_timeout : Nat) :
    ((cleanupPeers r now peer_timeout).1).keys = r.keys := by
  unfold cleanupPeers Registry.keys
  rw [List.map_map]
  apply List.map_congr_left
  intro p _
  by_cases hs : staleActive peer_timeout now p.2 = true <;> simp [hs]

/-- Case analysis of the registry result of processAnnouncement: either the
registry is untouched (self-announcement, missing or empty peer id), or a
record is stored under a key pid different from the own id of the node —
freshly initialized (hence active and keyed by its own peer_id) when pid was
unknown, or the update of the looked-up record (which keeps both peer_id and
status) when it was known. -/
theorem processAnnouncement_cases (selfId : String) (r : Registry)
    (d : PeerData) (addr : String) (now : Nat) (nowIso : String) :
    (processAnnouncement selfId r d addr now nowIso).1 = r
    ∨ ∃ pid, pid ≠ selfId ∧ ∃ stored,
        ((stored.peer_id = pid ∧ stored.status = "active")
          ∨ ∃ existing, Registry.lookup r pid = some existing
              ∧ stored.peer_id = existing.peer_id
              ∧ stored.status = existing.status)
        ∧ (processAnnouncement selfId r d addr now nowIso).1
            = r.store pid stored := by
  by_cases h1 : d.peer_id = some selfId
  · left
    unfold processAnnouncement
    simp [h1]
  · cases hp : d.peer_id with
    | none =>
      left
      unfold processAnnouncement
      simp [h1, hp]
    | some pid =>
      by_cases hpe : pid = ""
      · left
        unfold processAnnouncement
        simp [h1, hp, hpe]
      · right
        have hne : pid ≠ selfId := fun hcon => h1 (by rw [hp, hcon])
        refine ⟨pid, hne, ?_⟩
        cases hl : Registry.lookup r pid with
        | none =>
          refine ⟨(PeerInfo.init pid (d.hostname.getD "Unknown") addr
              (d.timestamp.getD nowIso) now).update
              { d with ip := some addr } now, Or.inl ⟨rfl, rfl⟩, ?_⟩
          unfold processAnnouncement
          simp [h1, hp, hpe, hl, hne]
        | some existing =>
          refine ⟨existing.update { d with ip := some addr } now,
            Or.inr ⟨existing, rfl, ?_, ?_⟩, ?_⟩
          · exact PeerInfo.update_peer_id _ _ _
          · exact PeerInfo.update_status _ _ _
          · unfold processAnnouncement
            simp [h1, hp, hpe, hl, hne]

/-- Claim C3, confirmed: an announcement whose peer_id equals the own id of
the node leaves the registry untouched and fires no callback; and after any
datagram whatsoever, a registry that did not contain the own id of the node
still does not contain it. -/
theorem C3_self_filtering (selfId : String) (peers : Registry) (d : PeerData)
    (addr : String) (now : Nat) (nowIso : String)
    (hself : selfId ∉ peers.keys) :
    (d.peer_id = some selfId →
      processAnnouncement selfId peers d addr now nowIso = (peers, []))
    ∧ selfId ∉ (processAnnouncement selfId peers d addr now nowIso).1.keys
    := by
  constructor
  · intro h
    unfold processAnnouncement
    simp [h]
  · rcases processAnnouncement_cases selfId peers d addr now nowIso with
      heq | ⟨pid, hne, stored, _, heq⟩
    · rw [heq]
      exact hself
    · rw [heq]
      intro hmem
      rcases Registry.mem_keys_store hmem with hin | hx
      · exact hself hin
      · exact hne hx.symm

/-- Witness for C3_self_filtering: a self-announcement against a registry
holding one foreign peer. -/
theorem C3_self_filtering_witness :
    processAnnouncement "self"
        [("p1", PeerInfo.init "p1" "h1" "1.2.3.4" "T" 0)]
        { peer_id := some "self", hostname := some "me", ip := none,
          timestamp := some "T2", environments := none, version := none,
          features := none } "10.0.0.9" 7 "T7"
      = ([("p1", PeerInfo.init "p1" "h1" "1.2.3.4" "T" 0)], []) :=
  (C3_self_filtering "self"
    [("p1", PeerInfo.init "p1" "h1" "1.2.3.4" "T" 0)]
    { peer_id := some "self", hostname := some "me", ip := none,
      timestamp := some "T2", environments := none, version := none,
      features := none } "10.0.0.9" 7 "T7" (by decide)).1 rfl

/-- Claim C9, confirmed: every discovery operation preserves the registry
invariant — each stored record is keyed by its own peer_id and its status is
active or inactive — and never removes a key.  Records are created active by
PeerInfo.init, PeerInfo.update touches neither peer_id nor status, and the
cleanup sweep only rewrites a status to inactive. -/
theorem C9_registry_invariant (selfId : String) (r : Registry)
    (op : DiscoveryOp) (h : RegistryInv r) :
    RegistryInv (discoveryStep selfId r op)
    ∧ ∀ x ∈ r.keys, x ∈ (discoveryStep selfId r op).keys := by
  cases op with
  | getPeer pid => exact ⟨h, fun x hx => hx⟩
  | getPeers now peer_timeout =>
    constructor
    · intro kp hkp
      unfold discoveryStep get_peers cleanupPeers at hkp
      simp only at hkp
      obtain ⟨p, hp, rfl⟩ := List.mem_map.mp hkp
      by_cases hs : staleActive peer_timeout now p.2 = true
      · rw [if_pos hs]
        exact ⟨(h p hp).1, Or.inr rfl⟩
      · rw [if_neg hs]
        exact h p hp
    · intro x hx
      unfold discoveryStep get_peers
      rw [cleanupPeers_keys]
      exact hx
  | announce d addr now nowIso =>
    have hstep : discoveryStep selfId r (.announce d addr now nowIso)
        = (processAnnouncement selfId r d addr now nowIso).1 := rfl
    rcases processAnnouncement_cases selfId r d addr now nowIso with
      heq | ⟨pid, _, stored, hspec, heq⟩
    · rw [hstep, heq]
      exact ⟨h, fun x hx => hx⟩
    · rw [hstep, heq]
      have hprops : stored.peer_id = pid
          ∧ (stored.status = "active" ∨ stored.status = "inactive") := by
        rcases hspec with ⟨hpid, hst⟩ | ⟨existing, hl, hpid, hst⟩
        · exact ⟨hpid, Or.inl hst⟩
        · have hmem := h (pid, existing) (Registry.lookup_mem hl)
          exact ⟨by rw [hpid]; exact hmem.1, by rw [hst]; exact hmem.2⟩
      exact ⟨RegistryInv.store h hprops.1 hprops.2,
        fun x hx => Registry.subset_keys_store _ _ _ hx⟩

/-- Witness for C9_registry_invariant: a sweep over a one-record registry. -/
theorem C9_registry_invariant_witness :
    RegistryInv (discoveryStep "self"
      [("p1", PeerInfo.init "p1" "h1" "1.2.3.4" "T" 0)]
      (.getPeers 100 60)) :=
  (C9_registry_invariant "self"
    [("p1", PeerInfo.init "p1" "h1" "1.2.3.4" "T" 0)]
    (.getPeers 100 60) (by decide)).1

/-- A sample foreign announcement datagram used in concrete evaluations. -/
def p1Announcement : PeerData :=
  { peer_id := some "p1", hostname := some "h1", ip := none,
    timestamp := some "T", environments := none, version := none,
    features := none }

/-- The registry after the first announcement of p1 at instant 0. -/
def C2_afterFirstAnnounce : Registry :=
  (processAnnouncement "self" [] p1Announcement "10.0.0.5" 0 "T0").1

/-- The get_peers call at instant 100 with peer_timeout 60: the swept
registry and the returned active list. -/
def C2_sweepAt100 : Registry × List PeerInfo :=
  get_peers C2_afterFirstAnnounce 100 60

/-- The registry after p1 announces again at instant 101, past the sweep. -/
def C2_afterReannounce : Registry :=
  (processAnnouncement "self" C2_sweepAt100.1 p1Announcement "10.0.0.5" 101
    "T101").1

/-- Claim C2, evaluation at the failing input: peer p1 announces at t = 0
(timeout 60); get_peers at t = 100 marks it inactive and excludes it (the
first half of the claim holds); p1 then announces again at t = 101 and the
record is updated in place with last_seen = 101 — yet its status stays
inactive, because PeerInfo.update never resets status, so get_peers at
t = 102 still excludes it.  No inactive-to-active transition exists in the
source. -/
theorem C2_no_reactivation_after_timeout :
    ((Registry.lookup C2_sweepAt100.1 "p1").map PeerInfo.status
        = some "inactive")
    ∧ C2_sweepAt100.2 = []
    ∧ ((Registry.lookup C2_afterReannounce "p1").map PeerInfo.last_seen
        = some 101)
    ∧ ((Registry.lookup C2_afterReannounce "p1").map PeerInfo.status
        = some "inactive")
    ∧ (get_peers C2_afterReannounce 102 60).2 = [] := by
  exact ⟨rfl, rfl, rfl, rfl, rfl⟩

/-- Claim C8, evaluation at the failing input: a first announcement from the
unseen peer p1 fires the callbacks with the pair (peer id, record) — the
first argument is the peer id p1, which is none of the event tags new,
update, remove that the claim (and the registered consumer
P2PNetwork._on_peer_discovered) expects; the timeout sweep likewise passes
the peer id, not remove. -/
theorem C8_callbacks_receive_peer_id_not_event :
    ((processAnnouncement "self" []
        { peer_id := some "p1", hostname := some "h1", ip := none,
          timestamp := some "T", environments := none, version := none,
          features := none } "10.0.0.5" 5 "T5").2.map Prod.fst = ["p1"])
    ∧ "p1" ∉ (["new", "update", "remove"] : List String)
    ∧ ((processAnnouncement "self" []
        { peer_id := some "p1", hostname := some "h1", ip := none,
          timestamp := some "T", environments := none, version := none,
          features := none } "10.0.0.5" 5 "T5").2.map
          (fun c => c.2.peer_id) = ["p1"])
    ∧ ((cleanupPeers
        (processAnnouncement "self" []
          { peer_id := some "p1", hostname := some "h1", ip := none,
            timestamp := some "T", environments := none, version := none,
            features := none } "10.0.0.5" 5 "T5").1 100 60).2.map Prod.fst
      = ["p1"]) := by
  exact ⟨rfl, by decide, rfl, rfl⟩

/-- Claim C10, confirmed: get_peer is a plain lookup — the registry is not
swept or mutated, a stored record is returned whatever its status, and none
is returned exactly for unknown ids; consequently the send and download
resolution paths, which go through get_peer, route a message for a peer
already marked inactive to its remote endpoint instead of failing. -/
theorem C10_get_peer_ignores_status (peers : Registry) (pid : String)
    (p : PeerInfo) (localHostname selfId : String) (localIps : List String)
    (use_ssl : Bool) (port : Nat) (file_id : String)
    (hlook : Registry.lookup peers pid = some p)
    (hstatus : p.status = "inactive")
    (hn1 : pid ≠ "localhost") (hn2 : pid ≠ "127.0.0.1")
    (hn3 : pid ≠ localHostname) (hn4 : pid ∉ localIps) (hn5 : pid ≠ selfId) :
    (get_peer peers pid).1 = peers
    ∧ (get_peer peers pid).2 = some p
    ∧ (∀ q, Registry.lookup peers q = none → (get_peer peers q).2 = none)
    ∧ resolveSendRoute localHostname localIps selfId use_ssl port peers pid
        = .remote ((if use_ssl then "https" else "http") ++ "://" ++ p.ip
            ++ ":" ++ toString port ++ "/message")
    ∧ resolveDownloadRoute use_ssl port peers pid file_id
        = some ((if use_ssl then "https" else "http") ++ "://" ++ p.ip
            ++ ":" ++ toString port ++ "/file/download/" ++ file_id) := by
  refine ⟨rfl, hlook, fun q hq => hq, ?_, ?_⟩
  · unfold resolveSendRoute get_peer
    simp [hn1, hn2, hn3, hn4, hn5, hlook]
  · unfold resolveDownloadRoute get_peer
    simp [hlook]

/-- Witness for C10_get_peer_ignores_status: a registry holding one record
already marked inactive, resolved for a remote send over plain HTTP. -/
theorem C10_get_peer_ignores_status_witness :
    resolveSendRoute "myhost" [] "self" false 37778
        [("p1", { PeerInfo.init "p1" "h1" "1.2.3.4" "T" 0 with
            status := "inactive" })] "p1"
      = .remote "http://1.2.3.4:37778/message" :=
  (C10_get_peer_ignores_status
    [("p1", { PeerInfo.init "p1" "h1" "1.2.3.4" "T" 0 with
        status := "inactive" })] "p1"
    { PeerInfo.init "p1" "h1" "1.2.3.4" "T" 0 with status := "inactive" }
    "myhost" "self" [] false 37778 "f1"
    rfl rfl (by decide) (by decide) (by decide) (by decide)
    (by decide)).2.2.2.1

end Share
